import Mathlib

/-!
Verification of the Docker provider's task operations
(`apps/docker-provider/src/index.ts`): the restore branch (real
checkpoint-start vs. simulated unpause), the lifecycle hook dispatcher
(`#sendPostStart`/`#sendPreStop`, `#runLifecycleCommand`,
`exponentialBackoff`), port discovery (`#getHttpServerPort`) and the
non-fatal error policy of `index`/`create`.

External effects are embedded as explicit inputs: each external command's
outcome is supplied by the caller (a world record), and the operations
return the list of observable events they performed together with their
result (`Except` models a JavaScript throw).
-/

namespace DockerProvider

/-- The result object of a completed external command (an awaited execa
child process): exit code, escaped command line, captured stdout and
stderr. -/
structure ExecaResult where
  exitCode : Int
  escapedCommand : String
  stdout : String
  stderr : String
  deriving DecidableEq, Repr

/-- An error raised by an external command invocation: either a rejected
execa call, whose error object is the completed child-process result (and
so has an `escapedCommand` field), or a failure of the command-issuing
mechanism itself (an error that is not a completed child-process
result). -/
inductive CmdError where
  | execa (r : ExecaResult)
  | infra (message : String)
  deriving DecidableEq, Repr

/-- `isExecaChildProcess` from index.ts: a value is an awaited execa child
process exactly when it is an object with an `escapedCommand` field. -/
def isExecaChildProcess : CmdError → Bool
  | .execa _ => true
  | .infra _ => false

/-- An exception escaping one of the module's operations: a propagated
command error, or an `Error` the module itself constructs via
`new Error(message)`. -/
inductive JsError where
  | cmd (e : CmdError)
  | jsNew (message : String)
  deriving DecidableEq, Repr

/-- The two lifecycle hook kinds (`"postStart" | "preStop"`). -/
inductive HookType where
  | postStart
  | preStop
  deriving DecidableEq, Repr

/-- The string name of a hook kind, as interpolated into messages and
request paths. -/
def hookTypeName : HookType → String
  | .postStart => "postStart"
  | .preStop => "preStop"

deriving instance DecidableEq for Except

/-- Observable events of an operation run, in execution order. -/
inductive Event where
  | unpauseCmd (container : String) (result : Except CmdError ExecaResult)
  | startCheckpointCmd (checkpointRef container : String) (result : Except CmdError ExecaResult)
  | postStartBegin (container : String)
  | preStopBegin (container : String)
  | dockerLogsCmd (container : String)
  | lifecycleAttempt (t : HookType) (container : String) (port : Nat) (retryCount : Nat) (ok : Bool)
  | sleep (ms : ℚ)
  | logError (tag : String) (exitCode : Int) (escapedCommand stdout stderr : String)
  deriving DecidableEq, Repr

/-! ## Port discovery (`#getHttpServerPort`) -/

/-- The literal part of the pattern
`/http server listening on port (?<port>[0-9]+)/`. -/
def portPattern : List Char := "http server listening on port ".data

/-- The longest leading run of decimal digits: the greedy capture of
`[0-9]+` at a given position. -/
def leadingDigits : List Char → List Char
  | [] => []
  | c :: cs => if c.isDigit then c :: leadingDigits cs else []

/-- Numeric value of a digit capture, as JavaScript `Number` yields on a
string of decimal digits. -/
def digitsVal (ds : List Char) : Nat :=
  ds.foldl (fun acc c => acc * 10 + (c.toNat - 48)) 0

/-- First match of the port pattern, scanning left to right: the first
position where the literal `portPattern` occurs immediately followed by at
least one digit; returns the greedy digit capture there. `none` when the
pattern occurs nowhere in the text. -/
def firstPortCapture : List Char → Option (List Char)
  | [] => none
  | c :: cs =>
    let ds := leadingDigits ((c :: cs).drop portPattern.length)
    if portPattern.isPrefixOf (c :: cs) && !ds.isEmpty then some ds
    else firstPortCapture cs

/-- `#getHttpServerPort` on one point-in-time snapshot of the container's
stdout log. `Number(matches?.groups?.port)` is `NaN` when there is no
match, and the truthiness guard `if (!port)` rejects both `NaN` and a
captured `0`, throwing `failed to extract port from logs`. -/
def getHttpServerPort (stdout : String) : Except JsError Nat :=
  match firstPortCapture stdout.data with
  | none => .error (.jsNew "failed to extract port from logs")
  | some ds =>
    let port := digitsVal ds
    if port = 0 then .error (.jsNew "failed to extract port from logs")
    else .ok port

/-! ## Backoff and the lifecycle command (`exponentialBackoff`,
`#runLifecycleCommand`) -/

/-- `exponentialBackoff` from index.ts:
`min(exponential ** retryCount * minDelay, maxDelay) + Math.random() * jitter`,
with `rand ∈ [0, 1)` standing for the `Math.random()` draw. -/
def exponentialBackoff (retryCount exponential minDelay maxDelay jitterMax : ℕ)
    (rand : ℚ) : ℚ :=
  min ((exponential : ℚ) ^ retryCount * minDelay) maxDelay + rand * jitterMax

/-- The message of the terminal lifecycle error:
`` `${type} command failed after ${retryCount - 1} retries` `` with
JavaScript integer subtraction (so `-1` when `retryCount = 0`). -/
def lifecycleFailMsg (t : HookType) (retryCount : Nat) : String :=
  hookTypeName t ++ " command failed after " ++ toString ((retryCount : Int) - 1) ++ " retries"

/-- `#runLifecycleCommand`: attempt the in-container delivery command
(`docker exec … wget … /{type}?cause=…`); on failure, if the hook is
postStart and the retry counter is below 6, sleep for
`exponentialBackoff(retryCount + 1, 2, 50, 1150, 50)` and recurse with
counter + 1; otherwise raise the terminal error. `attemptOk n` supplies
the outcome of the attempt made at counter value `n`, and `rand n` the
`Math.random()` draw of the backoff slept after it. -/
def runLifecycleCommand (containerName : String) (port : Nat) (t : HookType) (cause : String)
    (attemptOk : Nat → Bool) (rand : Nat → ℚ) (retryCount : Nat) :
    List Event × Except JsError Unit :=
  if attemptOk retryCount then
    ([.lifecycleAttempt t containerName port retryCount true], .ok ())
  else if h : t = .postStart ∧ retryCount < 6 then
    let rest := runLifecycleCommand containerName port t cause attemptOk rand (retryCount + 1)
    (.lifecycleAttempt t containerName port retryCount false ::
      .sleep (exponentialBackoff (retryCount + 1) 2 50 1150 50 (rand retryCount)) :: rest.1,
      rest.2)
  else
    ([.lifecycleAttempt t containerName port retryCount false],
      .error (.jsNew (lifecycleFailMsg t retryCount)))
termination_by 7 - retryCount
decreasing_by omega

/-! ## Hook dispatch (`#sendPostStart`, `#sendPreStop`) -/

/-- `#sendPostStart`: discover the control port from the container's log
snapshot, then run the postStart lifecycle command with cause `restore`;
any failure underneath is caught and re-raised as
`new Error("postStart command failed")`. `logsAt k` is the stdout snapshot
the k-th `docker logs` invocation would observe; the source invokes
`docker logs` exactly once, so only `logsAt 0` is consulted. -/
def sendPostStart (containerName : String) (logsAt : Nat → String)
    (attemptOk : Nat → Bool) (rand : Nat → ℚ) : List Event × Except JsError Unit :=
  match getHttpServerPort (logsAt 0) with
  | .error _ =>
    ([.postStartBegin containerName, .dockerLogsCmd containerName],
      .error (.jsNew "postStart command failed"))
  | .ok port =>
    let run := runLifecycleCommand containerName port .postStart "restore" attemptOk rand 0
    (.postStartBegin containerName :: .dockerLogsCmd containerName :: run.1,
      match run.2 with
      | .ok _ => .ok ()
      | .error _ => .error (.jsNew "postStart command failed"))

/-- `#sendPreStop`: discover the control port, then run the preStop
lifecycle command with cause `terminate`; any failure underneath is caught
and re-raised as `new Error("preStop command failed")`. -/
def sendPreStop (containerName : String) (logsAt : Nat → String)
    (attemptOk : Nat → Bool) (rand : Nat → ℚ) : List Event × Except JsError Unit :=
  match getHttpServerPort (logsAt 0) with
  | .error _ =>
    ([.preStopBegin containerName, .dockerLogsCmd containerName],
      .error (.jsNew "preStop command failed"))
  | .ok port =>
    let run := runLifecycleCommand containerName port .preStop "terminate" attemptOk rand 0
    (.preStopBegin containerName :: .dockerLogsCmd containerName :: run.1,
      match run.2 with
      | .ok _ => .ok ()
      | .error _ => .error (.jsNew "preStop command failed"))

/-! ## Capability state and `#initialize` -/

/-- Constructor options of `DockerTaskOperations` (`{ forceSimulate }`). -/
structure OpsOptions where
  forceSimulate : Bool
  deriving DecidableEq, Repr

/-- The instance's private mutable fields `#initialized`, `#canCheckpoint`. -/
structure OpsState where
  initialized : Bool
  canCheckpoint : Bool
  deriving DecidableEq, Repr

/-- The value returned by `#initialize` / `#getInitializeReturn`. -/
structure InitializeReturn where
  canCheckpoint : Bool
  willSimulate : Bool
  deriving DecidableEq, Repr

/-- `#getInitializeReturn`:
`willSimulate = !this.#canCheckpoint || this.opts.forceSimulate`. -/
def getInitializeReturn (opts : OpsOptions) (st : OpsState) : InitializeReturn :=
  { canCheckpoint := st.canCheckpoint
    willSimulate := !st.canCheckpoint || opts.forceSimulate }

/-- `#initialize`: memoized capability probe. `criuOk` is whether
`criu --version` succeeds, `dockerCheckpointOk` whether `docker checkpoint`
succeeds; either failure degrades to `canCheckpoint = false`. Returns the
updated state and the initialize return value. -/
def initializeOps (opts : OpsOptions) (st : OpsState) (criuOk dockerCheckpointOk : Bool) :
    OpsState × InitializeReturn :=
  if st.initialized then
    (st, getInitializeReturn opts st)
  else if !criuOk then
    let st1 : OpsState := { initialized := true, canCheckpoint := false }
    (st1, getInitializeReturn opts st1)
  else if !dockerCheckpointOk then
    let st1 : OpsState := { initialized := true, canCheckpoint := false }
    (st1, getInitializeReturn opts st1)
  else
    let st1 : OpsState := { initialized := true, canCheckpoint := true }
    (st1, getInitializeReturn opts st1)

/-! ## Container naming -/

/-- `#getIndexContainerName`. -/
def getIndexContainerName (suffix : String) : String :=
  "task-index-" ++ suffix

/-- `#getRunContainerName`. -/
def getRunContainerName (suffix : String) : String :=
  "task-run-" ++ suffix

/-! ## `index` and `create` -/

/-- `index`: run the ephemeral indexing container and await it. The
`docker run` outcome is supplied by `runResult`. A rejection that is an
awaited execa child process (the guard `if (!isExecaChildProcess(error))
throw error` fails) is logged with exit code, escaped command, stdout and
stderr and swallowed; any other rejection propagates. Environment-variable
injection and the probe's log lines are not observable here and are
elided. -/
def index (runResult : Except CmdError ExecaResult) : List Event × Except JsError Unit :=
  match runResult with
  | .ok _ => ([], .ok ())
  | .error (.execa r) =>
    ([.logError "Index failed:" r.exitCode r.escapedCommand r.stdout r.stderr], .ok ())
  | .error (.infra m) => ([], .error (.cmd (.infra m)))

/-- `create`: run the detached run container; same error policy as
`index`, with the `Create failed:` diagnostic. -/
def create (runResult : Except CmdError ExecaResult) : List Event × Except JsError Unit :=
  match runResult with
  | .ok _ => ([], .ok ())
  | .error (.execa r) =>
    ([.logError "Create failed:" r.exitCode r.escapedCommand r.stdout r.stderr], .ok ())
  | .error (.infra m) => ([], .error (.cmd (.infra m)))

/-! ## `restore` -/

/-- The external outcomes a `restore` run can consume: the two probe
commands, the `docker unpause` and `docker start --checkpoint` results,
the log snapshots, the lifecycle attempt outcomes and the random draws. -/
structure RestoreWorld where
  criuOk : Bool
  dockerCheckpointOk : Bool
  unpauseResult : Except CmdError ExecaResult
  startResult : Except CmdError ExecaResult
  logsAt : Nat → String
  attemptOk : Nat → Bool
  rand : Nat → ℚ

/-- `restore`: initialize, then branch on
`!this.#canCheckpoint || this.opts.forceSimulate` (the simulated path).
Simulated: `docker unpause`, guard on its exit code, then `#sendPostStart`.
Real: `docker start --checkpoint=<ref>`, guard on its exit code, then
`#sendPostStart`. A rejected runtime command propagates as-is. -/
def restore (opts : OpsOptions) (st : OpsState) (runId checkpointRef : String)
    (w : RestoreWorld) : List Event × Except JsError Unit :=
  let st1 := (initializeOps opts st w.criuOk w.dockerCheckpointOk).1
  let containerName := getRunContainerName runId
  if !st1.canCheckpoint || opts.forceSimulate then
    match w.unpauseResult with
    | .error e => ([.unpauseCmd containerName (.error e)], .error (.cmd e))
    | .ok r =>
      if r.exitCode ≠ 0 then
        ([.unpauseCmd containerName (.ok r)], .error (.jsNew "docker unpause command failed"))
      else
        let ps := sendPostStart containerName w.logsAt w.attemptOk w.rand
        (.unpauseCmd containerName (.ok r) :: ps.1, ps.2)
  else
    match w.startResult with
    | .error e => ([.startCheckpointCmd checkpointRef containerName (.error e)], .error (.cmd e))
    | .ok r =>
      if r.exitCode ≠ 0 then
        ([.startCheckpointCmd checkpointRef containerName (.ok r)],
          .error (.jsNew "docker start command failed"))
      else
        let ps := sendPostStart containerName w.logsAt w.attemptOk w.rand
        (.startCheckpointCmd checkpointRef containerName (.ok r) :: ps.1, ps.2)

/-! ## Event observations -/

/-- Count the events satisfying `p`. -/
def countEvents (p : Event → Bool) : List Event → Nat
  | [] => 0
  | e :: tr => (if p e then 1 else 0) + countEvents p tr

/-- Is this event the start of a PostStart dispatch? -/
def isPostStartBegin : Event → Bool
  | .postStartBegin _ => true
  | _ => false

/-- Is this event a `docker unpause` invocation? -/
def isUnpauseCmd : Event → Bool
  | .unpauseCmd _ _ => true
  | _ => false

/-- Is this event a `docker start --checkpoint` invocation? -/
def isStartCheckpointCmd : Event → Bool
  | .startCheckpointCmd _ _ _ => true
  | _ => false

/-- Is this event a lifecycle delivery attempt? -/
def isLifecycleAttemptEvent : Event → Bool
  | .lifecycleAttempt _ _ _ _ _ => true
  | _ => false

/-- Is this event a runtime command (unpause or checkpoint-start) that
reported success (resolved with exit code 0)? -/
def isRuntimeCmdSuccess : Event → Bool
  | .unpauseCmd _ (.ok r) => r.exitCode == 0
  | .startCheckpointCmd _ _ (.ok r) => r.exitCode == 0
  | _ => false

/-- The backoff delays slept during a run, in order. -/
def sleepDelays (tr : List Event) : List ℚ :=
  tr.filterMap fun e =>
    match e with
    | .sleep d => some d
    | _ => none

/-- Did the runtime command of this `restore` run report success: in the
simulated branch the `docker unpause` resolved with exit code 0, in the
real branch the `docker start --checkpoint` did. -/
def runtimeCmdOk (opts : OpsOptions) (st : OpsState) (w : RestoreWorld) : Bool :=
  let st1 := (initializeOps opts st w.criuOk w.dockerCheckpointOk).1
  if !st1.canCheckpoint || opts.forceSimulate then
    match w.unpauseResult with
    | .ok r => r.exitCode == 0
    | .error _ => false
  else
    match w.startResult with
    | .ok r => r.exitCode == 0
    | .error _ => false

/-- A concrete world for sample executions: both probes succeed, both
runtime commands resolve with exit code 0, the control process has logged
its port, and every delivery attempt succeeds. -/
def demoWorld : RestoreWorld where
  criuOk := true
  dockerCheckpointOk := true
  unpauseResult := .ok ⟨0, "docker unpause task-run-run_9", "", ""⟩
  startResult := .ok ⟨0, "docker start --checkpoint=ckpt task-run-run_9", "", ""⟩
  logsAt := fun _ => "http server listening on port 4000"
  attemptOk := fun _ => true
  rand := fun _ => 0

/-- A world whose control process logs its port only after the first
`docker logs` snapshot was taken, and whose delivery attempts would all
succeed. -/
def lateLogWorld : RestoreWorld where
  criuOk := true
  dockerCheckpointOk := true
  unpauseResult := .ok ⟨0, "docker unpause task-run-run_9", "", ""⟩
  startResult := .ok ⟨0, "docker start --checkpoint=ckpt task-run-run_9", "", ""⟩
  logsAt := fun k => if k = 0 then "starting up" else "http server listening on port 4000"
  attemptOk := fun _ => true
  rand := fun _ => 0

/-! ## Helper lemmas -/

theorem countEvents_nil (p : Event → Bool) : countEvents p [] = 0 := rfl

theorem countEvents_cons (p : Event → Bool) (e : Event) (tr : List Event) :
    countEvents p (e :: tr) = (if p e then 1 else 0) + countEvents p tr := rfl

/-- The trace of `#runLifecycleCommand` holds only delivery attempts and
sleeps, so any event predicate false on those counts zero on it. -/
theorem runLifecycleCommand_countEvents_zero
    (containerName : String) (port : Nat) (t : HookType) (cause : String)
    (attemptOk : Nat → Bool) (rand : Nat → ℚ) (p : Event → Bool)
    (hAttempt : ∀ ty c pt n ok, p (.lifecycleAttempt ty c pt n ok) = false)
    (hSleep : ∀ d, p (.sleep d) = false) :
    ∀ fuel retryCount, 7 - retryCount ≤ fuel →
      countEvents p (runLifecycleCommand containerName port t cause attemptOk rand retryCount).1
        = 0 := by
  intro fuel
  induction fuel with
  | zero =>
    intro rc h
    have hnot : ¬(t = HookType.postStart ∧ rc < 6) := fun hc => absurd hc.2 (by omega)
    rw [runLifecycleCommand]
    by_cases ha : attemptOk rc
    · simp [ha, countEvents, hAttempt]
    · simp [ha, hnot, countEvents, hAttempt]
  | succ n ih =>
    intro rc h
    rw [runLifecycleCommand]
    by_cases ha : attemptOk rc
    · simp [ha, countEvents, hAttempt]
    · by_cases hp : t = HookType.postStart ∧ rc < 6
      · obtain ⟨ht, h6⟩ := hp
        subst ht
        simp [ha, h6, countEvents, hAttempt, hSleep]
        exact ih (rc + 1) (by omega)
      · simp [ha, hp, countEvents, hAttempt]

/-- The dispatch layer emits exactly one PostStart-begin event per
`#sendPostStart` call. -/
theorem sendPostStart_countEvents_postStartBegin
    (c : String) (logsAt : Nat → String) (attemptOk : Nat → Bool) (rand : Nat → ℚ) :
    countEvents isPostStartBegin (sendPostStart c logsAt attemptOk rand).1 = 1 := by
  cases hp : getHttpServerPort (logsAt 0) with
  | error e => simp [sendPostStart, hp, countEvents, isPostStartBegin]
  | ok port =>
    simp [sendPostStart, hp, countEvents, isPostStartBegin]
    exact runLifecycleCommand_countEvents_zero c port HookType.postStart "restore"
      attemptOk rand isPostStartBegin (by intro _ _ _ _ _; rfl) (by intro _; rfl)
      7 0 (by omega)

/-- The trace of `#sendPostStart` always starts with its PostStart-begin
event. -/
theorem sendPostStart_head
    (c : String) (logsAt : Nat → String) (attemptOk : Nat → Bool) (rand : Nat → ℚ) :
    ((sendPostStart c logsAt attemptOk rand).1)[0]? = some (.postStartBegin c) := by
  cases hp : getHttpServerPort (logsAt 0) with
  | error e => simp [sendPostStart, hp]
  | ok port => simp [sendPostStart, hp]

/-- Generic zero-count for `#sendPostStart` traces: a predicate false on
every event kind the dispatcher can emit counts zero. -/
theorem sendPostStart_countEvents_zero
    (c : String) (logsAt : Nat → String) (attemptOk : Nat → Bool) (rand : Nat → ℚ)
    (p : Event → Bool)
    (hBegin : ∀ c', p (.postStartBegin c') = false)
    (hLogs : ∀ c', p (.dockerLogsCmd c') = false)
    (hAttempt : ∀ ty c' pt n ok, p (.lifecycleAttempt ty c' pt n ok) = false)
    (hSleep : ∀ d, p (.sleep d) = false) :
    countEvents p (sendPostStart c logsAt attemptOk rand).1 = 0 := by
  cases hp : getHttpServerPort (logsAt 0) with
  | error e => simp [sendPostStart, hp, countEvents, hBegin, hLogs]
  | ok port =>
    simp [sendPostStart, hp, countEvents, hBegin, hLogs]
    exact runLifecycleCommand_countEvents_zero c port HookType.postStart "restore"
      attemptOk rand p hAttempt hSleep 7 0 (by omega)

/-- `#sendPostStart` either succeeds or raises exactly
`new Error("postStart command failed")`. -/
theorem sendPostStart_result_cases
    (c : String) (logsAt : Nat → String) (attemptOk : Nat → Bool) (rand : Nat → ℚ) :
    (sendPostStart c logsAt attemptOk rand).2 = .ok ()
    ∨ (sendPostStart c logsAt attemptOk rand).2 = .error (.jsNew "postStart command failed") := by
  cases hp : getHttpServerPort (logsAt 0) with
  | error e => simp [sendPostStart, hp]
  | ok port =>
    cases hr : (runLifecycleCommand c port HookType.postStart "restore" attemptOk rand 0).2 with
    | error e => simp [sendPostStart, hp, hr]
    | ok u => simp [sendPostStart, hp, hr]

/-- With the first six delivery attempts failing, the PostStart run sleeps
exactly the six backoff delays, in order, whatever the seventh attempt
does. -/
theorem runLifecycleCommand_allFail_sleeps
    (c : String) (port : Nat) (cause : String) (attemptOk : Nat → Bool) (rand : Nat → ℚ)
    (hfail : ∀ k, k < 6 → attemptOk k = false) :
    sleepDelays (runLifecycleCommand c port HookType.postStart cause attemptOk rand 0).1
      = [exponentialBackoff 1 2 50 1150 50 (rand 0),
         exponentialBackoff 2 2 50 1150 50 (rand 1),
         exponentialBackoff 3 2 50 1150 50 (rand 2),
         exponentialBackoff 4 2 50 1150 50 (rand 3),
         exponentialBackoff 5 2 50 1150 50 (rand 4),
         exponentialBackoff 6 2 50 1150 50 (rand 5)] := by
  have h0 := hfail 0 (by omega)
  have h1 := hfail 1 (by omega)
  have h2 := hfail 2 (by omega)
  have h3 := hfail 3 (by omega)
  have h4 := hfail 4 (by omega)
  have h5 := hfail 5 (by omega)
  by_cases h6 : attemptOk 6
  · simp [runLifecycleCommand, h0, h1, h2, h3, h4, h5, h6, sleepDelays]
  · simp [runLifecycleCommand, h0, h1, h2, h3, h4, h5, h6, sleepDelays]

/-! ## Claim theorems -/

/-- Claim C5: a PreStop lifecycle-command delivery is never retried: when
the delivery command fails on its first attempt, `#runLifecycleCommand`
performs exactly that one attempt — no sleep, no further attempt — and
raises, and `#sendPreStop` propagates the failure immediately. -/
theorem preStop_single_failure_propagates_immediately
    (c : String) (port : Nat) (cause : String) (logsAt : Nat → String)
    (attemptOk : Nat → Bool) (rand : Nat → ℚ)
    (hfail : attemptOk 0 = false) :
    runLifecycleCommand c port HookType.preStop cause attemptOk rand 0
      = ([.lifecycleAttempt HookType.preStop c port 0 false],
         .error (.jsNew (lifecycleFailMsg HookType.preStop 0)))
    ∧ (∀ p, getHttpServerPort (logsAt 0) = .ok p →
        sendPreStop c logsAt attemptOk rand
          = ([.preStopBegin c, .dockerLogsCmd c, .lifecycleAttempt HookType.preStop c p 0 false],
             .error (.jsNew "preStop command failed"))) := by
  have hrun : runLifecycleCommand c port HookType.preStop cause attemptOk rand 0
      = ([.lifecycleAttempt HookType.preStop c port 0 false],
         .error (.jsNew (lifecycleFailMsg HookType.preStop 0))) := by
    rw [runLifecycleCommand]
    simp [hfail]
  refine ⟨hrun, ?_⟩
  intro p hp
  have hrun' : runLifecycleCommand c p HookType.preStop "terminate" attemptOk rand 0
      = ([.lifecycleAttempt HookType.preStop c p 0 false],
         .error (.jsNew (lifecycleFailMsg HookType.preStop 0))) := by
    rw [runLifecycleCommand]
    simp [hfail]
  simp [sendPreStop, hp, hrun']

/-- Claim C5 witness: the PreStop theorem applied to a concrete failing
delivery. -/
theorem preStop_single_failure_witness :
    runLifecycleCommand "task-run-run_9" 4000 HookType.preStop "terminate"
        (fun _ => false) (fun _ => 0) 0
      = ([.lifecycleAttempt HookType.preStop "task-run-run_9" 4000 0 false],
         .error (.jsNew (lifecycleFailMsg HookType.preStop 0)))
    ∧ (∀ p, getHttpServerPort ((fun _ => "http server listening on port 4000") 0) = .ok p →
        sendPreStop "task-run-run_9" (fun _ => "http server listening on port 4000")
            (fun _ => false) (fun _ => 0)
          = ([.preStopBegin "task-run-run_9", .dockerLogsCmd "task-run-run_9",
              .lifecycleAttempt HookType.preStop "task-run-run_9" p 0 false],
             .error (.jsNew "preStop command failed"))) :=
  preStop_single_failure_propagates_immediately "task-run-run_9" 4000 "terminate"
    (fun _ => "http server listening on port 4000") (fun _ => false) (fun _ => 0) rfl

/-- Claim C6: an `index`/`create` whose container command ran and exited
non-zero — the rejection is an awaited execa child process carrying the
diagnostics — logs exit code, escaped command, stdout and stderr and
returns normally; a rejection of the command-issuing mechanism itself
(`isExecaChildProcess` false) propagates to the caller. -/
theorem index_create_nonzero_exit_swallowed_infra_propagates :
    (∀ r : ExecaResult,
      index (.error (.execa r))
        = ([.logError "Index failed:" r.exitCode r.escapedCommand r.stdout r.stderr], .ok ())
      ∧ create (.error (.execa r))
        = ([.logError "Create failed:" r.exitCode r.escapedCommand r.stdout r.stderr], .ok ()))
    ∧ (∀ e : CmdError, isExecaChildProcess e = false →
      index (.error e) = ([], .error (.cmd e))
      ∧ create (.error e) = ([], .error (.cmd e))) := by
  constructor
  · intro r
    exact ⟨rfl, rfl⟩
  · intro e he
    cases e with
    | execa r => simp [isExecaChildProcess] at he
    | infra m => exact ⟨rfl, rfl⟩

/-- Claim C6 witness: a concrete non-zero container exit is logged and
swallowed, and a concrete infrastructure failure propagates. -/
theorem index_create_error_policy_witness :
    (index (.error (.execa ⟨1, "docker run --rm task-index-abc123", "out", "err"⟩))
        = ([.logError "Index failed:" 1 "docker run --rm task-index-abc123" "out" "err"], .ok ())
      ∧ create (.error (.execa ⟨1, "docker run --rm task-index-abc123", "out", "err"⟩))
        = ([.logError "Create failed:" 1 "docker run --rm task-index-abc123" "out" "err"], .ok ()))
    ∧ (index (.error (.infra "spawn docker ENOENT")) = ([], .error (.cmd (.infra "spawn docker ENOENT")))
      ∧ create (.error (.infra "spawn docker ENOENT")) = ([], .error (.cmd (.infra "spawn docker ENOENT")))) :=
  ⟨index_create_nonzero_exit_swallowed_infra_propagates.1
      ⟨1, "docker run --rm task-index-abc123", "out", "err"⟩,
    index_create_nonzero_exit_swallowed_infra_propagates.2 (.infra "spawn docker ENOENT") rfl⟩

/-- Claim C7 (amended): port discovery is NOT retried by the dispatch
layer: `docker logs` is snapshotted exactly once per PostStart dispatch,
before the retry loop, and when discovery on that first snapshot fails the
whole dispatch fails at once — no delivery attempt, no sleep — whatever
the later snapshots or the attempt outcomes would have been. -/
theorem postStart_discovery_failure_not_retried
    (c : String) (logsAt : Nat → String) (attemptOk : Nat → Bool) (rand : Nat → ℚ)
    (err : JsError) (h : getHttpServerPort (logsAt 0) = .error err) :
    sendPostStart c logsAt attemptOk rand
      = ([.postStartBegin c, .dockerLogsCmd c], .error (.jsNew "postStart command failed")) := by
  simp [sendPostStart, h]

/-- Claim C7 witness: the no-mitigation theorem at a world whose control
process logs its port only after the first snapshot and whose delivery
attempts would all succeed. -/
theorem postStart_discovery_failure_witness :
    sendPostStart "task-run-run_9"
        (fun k => if k = 0 then "starting up" else "http server listening on port 4000")
        (fun _ => true) (fun _ => 0)
      = ([.postStartBegin "task-run-run_9", .dockerLogsCmd "task-run-run_9"],
         .error (.jsNew "postStart command failed")) :=
  postStart_discovery_failure_not_retried "task-run-run_9"
    (fun k => if k = 0 then "starting up" else "http server listening on port 4000")
    (fun _ => true) (fun _ => 0) (.jsNew "failed to extract port from logs") (by decide)

/-- Claim C7 counterexample: a PostStart dispatch in which port discovery
fails on the first snapshot while the port is logged from the next
snapshot on and every delivery attempt would succeed — the very execution
the claim says succeeds via a retried attempt — fails. -/
theorem postStart_discovery_failure_no_mitigation_cex :
    (sendPostStart "task-run-run_9"
        (fun k => if k = 0 then "starting up" else "http server listening on port 4000")
        (fun _ => true) (fun _ => 0)).2 = .error (.jsNew "postStart command failed")
    ∧ getHttpServerPort "http server listening on port 4000" = .ok 4000
    ∧ (runLifecycleCommand "task-run-run_9" 4000 HookType.postStart "restore"
        (fun _ => true) (fun _ => 0) 1).2 = .ok () := by
  refine ⟨by decide, by decide, ?_⟩
  rw [runLifecycleCommand]
  simp

/-- Claim C8 (amended): port discovery returns the integer captured by the
first occurrence of `http server listening on port <N>` whenever that
integer is nonzero, and raises the port-extraction error for every
snapshot with no occurrence of the pattern. -/
theorem getHttpServerPort_first_capture :
    (∀ (s : String) (ds : List Char),
      firstPortCapture s.data = some ds → digitsVal ds ≠ 0 →
        getHttpServerPort s = .ok (digitsVal ds))
    ∧ (∀ s : String, firstPortCapture s.data = none →
        getHttpServerPort s = .error (.jsNew "failed to extract port from logs")) := by
  constructor
  · intro s ds h hz
    simp [getHttpServerPort, h, hz]
  · intro s h
    simp [getHttpServerPort, h]

/-- Claim C8 witness: the spec's sample snapshot yields 4000, and a
pattern-free snapshot raises. -/
theorem getHttpServerPort_first_capture_witness :
    getHttpServerPort "...\nhttp server listening on port 4000\n..." = .ok 4000
    ∧ getHttpServerPort "no port has been logged yet"
        = .error (.jsNew "failed to extract port from logs") := by
  refine ⟨?_, ?_⟩
  · have h := getHttpServerPort_first_capture.1 "...\nhttp server listening on port 4000\n..."
      ['4', '0', '0', '0'] (by decide) (by decide)
    have hv : digitsVal ['4', '0', '0', '0'] = 4000 := by decide
    rw [hv] at h
    exact h
  · exact getHttpServerPort_first_capture.2 "no port has been logged yet" (by decide)

/-- Claim C8 counterexample: the snapshot `http server listening on port 0`
has a first occurrence of the pattern capturing the integer 0, yet
`#getHttpServerPort` raises instead of returning that captured integer. -/
theorem getHttpServerPort_captured_zero_cex :
    firstPortCapture "http server listening on port 0".data = some ['0']
    ∧ getHttpServerPort "http server listening on port 0"
        = .error (.jsNew "failed to extract port from logs") := by
  exact ⟨by decide, by decide⟩

/-- Claim C10: a snapshot whose first pattern match captures the numeral 0
makes `#getHttpServerPort` raise the port-extraction error rather than
return 0: the captured number is checked for truthiness, and 0 is falsy. -/
theorem getHttpServerPort_zero_capture_raises
    (s : String) (ds : List Char)
    (h1 : firstPortCapture s.data = some ds) (h2 : digitsVal ds = 0) :
    getHttpServerPort s = .error (.jsNew "failed to extract port from logs") := by
  simp [getHttpServerPort, h1, h2]

/-- Claim C10 witness: the zero-capture theorem at the concrete snapshot
`http server listening on port 0`. -/
theorem getHttpServerPort_zero_capture_witness :
    getHttpServerPort "http server listening on port 0"
      = .error (.jsNew "failed to extract port from logs") :=
  getHttpServerPort_zero_capture_raises "http server listening on port 0" ['0']
    (by decide) (by decide)

/-- Claim C2 (amended): the delay slept before retry n (1 ≤ n ≤ 6) is
`min(2^n * 50, 1150) + jitter` with `jitter = rand * 50 ∈ [0, 50)`, so it
lies in `[min(2^n*50, 1150), min(2^n*50, 1150) + 50)`; the successive base
delays are therefore 100, 200, 400, 800, 1150, 1150 ms (not 50, 100, 200,
400, 800, 1150). -/
theorem postStart_backoff_schedule
    (c : String) (port : Nat) (cause : String) (attemptOk : Nat → Bool) (rand : Nat → ℚ)
    (n : Nat) (hn1 : 1 ≤ n) (hn6 : n ≤ 6)
    (hfail : ∀ k, k < 6 → attemptOk k = false)
    (hrand : ∀ k, 0 ≤ rand k ∧ rand k < 1) :
    (sleepDelays (runLifecycleCommand c port HookType.postStart cause
        attemptOk rand 0).1)[n - 1]?
      = some (exponentialBackoff n 2 50 1150 50 (rand (n - 1)))
    ∧ exponentialBackoff n 2 50 1150 50 (rand (n - 1))
        = min ((2 : ℚ) ^ n * 50) 1150 + rand (n - 1) * 50
    ∧ min ((2 : ℚ) ^ n * 50) 1150 ≤ exponentialBackoff n 2 50 1150 50 (rand (n - 1))
    ∧ exponentialBackoff n 2 50 1150 50 (rand (n - 1)) < min ((2 : ℚ) ^ n * 50) 1150 + 50 := by
  have hs := runLifecycleCommand_allFail_sleeps c port cause attemptOk rand hfail
  have heq : exponentialBackoff n 2 50 1150 50 (rand (n - 1))
      = min ((2 : ℚ) ^ n * 50) 1150 + rand (n - 1) * 50 := by
    simp [exponentialBackoff]
  have h0 : 0 ≤ rand (n - 1) * 50 := mul_nonneg (hrand (n - 1)).1 (by norm_num)
  have h1 : rand (n - 1) * 50 < 50 := by
    have h := mul_lt_mul_of_pos_right (hrand (n - 1)).2 (show (0 : ℚ) < 50 by norm_num)
    simpa using h
  refine ⟨?_, heq, by rw [heq]; linarith, by rw [heq]; linarith⟩
  rw [hs]
  interval_cases n <;> simp

/-- Claim C2 witness: the backoff theorem at retry 6 with jitter draw 1/2:
the slept delay is the capped base 1150 plus 25 ms of jitter. -/
theorem postStart_backoff_schedule_witness :
    (sleepDelays (runLifecycleCommand "task-run-run_9" 4000 HookType.postStart "restore"
        (fun _ => false) (fun _ => (1 : ℚ)/2) 0).1)[5]?
      = some (exponentialBackoff 6 2 50 1150 50 ((1 : ℚ)/2))
    ∧ exponentialBackoff 6 2 50 1150 50 ((1 : ℚ)/2)
        = min ((2 : ℚ) ^ 6 * 50) 1150 + (1 : ℚ)/2 * 50
    ∧ min ((2 : ℚ) ^ 6 * 50) 1150 ≤ exponentialBackoff 6 2 50 1150 50 ((1 : ℚ)/2)
    ∧ exponentialBackoff 6 2 50 1150 50 ((1 : ℚ)/2) < min ((2 : ℚ) ^ 6 * 50) 1150 + 50 :=
  postStart_backoff_schedule "task-run-run_9" 4000 "restore" (fun _ => false)
    (fun _ => (1 : ℚ)/2) 6 (by norm_num) (by norm_num) (fun _ _ => rfl) (fun _ => by norm_num)

/-- Claim C2 counterexample: with a zero jitter draw the delay slept
before retry 1 is 100 ms, not the 50 ms the claim's base-delay list
predicts (50 + 0·50 ≠ 100). -/
theorem postStart_first_retry_delay_cex :
    (sleepDelays (runLifecycleCommand "task-run-run_9" 4000 HookType.postStart "restore"
        (fun _ => false) (fun _ => 0) 0).1)[0]?
      = some 100
    ∧ (50 : ℚ) + 0 * 50 ≠ 100 := by
  constructor
  · rw [runLifecycleCommand_allFail_sleeps "task-run-run_9" 4000 "restore"
      (fun _ => false) (fun _ => 0) (fun _ _ => rfl)]
    simp [exponentialBackoff]
    norm_num
  · norm_num

/-- Claim C3: with every delivery attempt failing, the PostStart
dispatcher performs 7 attempts (6 retries, retrying only while the counter
is below 6) and then raises — but the terminal message reports
`retryCount - 1 = 5` retries although 6 retries (7 attempts) were
performed. -/
theorem postStart_exhaustion_message_off_by_one :
    countEvents isLifecycleAttemptEvent (runLifecycleCommand "task-run-run_9" 4000
        HookType.postStart "restore" (fun _ => false) (fun _ => 0) 0).1 = 7
    ∧ (runLifecycleCommand "task-run-run_9" 4000 HookType.postStart "restore"
        (fun _ => false) (fun _ => 0) 0).2
      = .error (.jsNew "postStart command failed after 5 retries") := by
  constructor
  · simp [runLifecycleCommand, countEvents, isLifecycleAttemptEvent]
  · simp [runLifecycleCommand]
    decide

/-- Claim C1: a restore that returns successfully performed exactly one
PostStart dispatch, and that dispatch begins strictly after the runtime
command (unpause in simulated mode, checkpoint-start in real mode) has
reported success — the trace's first event is the successful runtime
command, its second the dispatch begin; and a restore whose runtime
command fails performs no PostStart dispatch at all. -/
theorem restore_dispatches_postStart_once_after_runtime_success
    (opts : OpsOptions) (st : OpsState) (runId checkpointRef : String) (w : RestoreWorld) :
    ((restore opts st runId checkpointRef w).2 = .ok () →
      countEvents isPostStartBegin (restore opts st runId checkpointRef w).1 = 1
      ∧ (∃ e, ((restore opts st runId checkpointRef w).1)[0]? = some e
          ∧ isRuntimeCmdSuccess e = true)
      ∧ ((restore opts st runId checkpointRef w).1)[1]?
          = some (.postStartBegin (getRunContainerName runId)))
    ∧ (runtimeCmdOk opts st w = false →
      countEvents isPostStartBegin (restore opts st runId checkpointRef w).1 = 0) := by
  cases hb : (!(initializeOps opts st w.criuOk w.dockerCheckpointOk).1.canCheckpoint
      || opts.forceSimulate) with
  | true =>
    cases hu : w.unpauseResult with
    | error e =>
      constructor
      · intro hok
        simp [restore, hb, hu] at hok
      · intro _
        simp [restore, hb, hu, countEvents, isPostStartBegin]
    | ok r =>
      by_cases hex : r.exitCode = 0
      · constructor
        · intro _
          refine ⟨?_, ⟨.unpauseCmd (getRunContainerName runId) (.ok r), ?_, ?_⟩, ?_⟩
          · simp [restore, hb, hu, hex, countEvents, isPostStartBegin,
              sendPostStart_countEvents_postStartBegin]
          · simp [restore, hb, hu, hex]
          · simp [isRuntimeCmdSuccess, hex]
          · simp [restore, hb, hu, hex, sendPostStart_head]
        · intro hfalse
          simp [runtimeCmdOk, hb, hu, hex] at hfalse
      · constructor
        · intro hok
          simp [restore, hb, hu, hex] at hok
        · intro _
          simp [restore, hb, hu, hex, countEvents, isPostStartBegin]
  | false =>
    cases hu : w.startResult with
    | error e =>
      constructor
      · intro hok
        simp [restore, hb, hu] at hok
      · intro _
        simp [restore, hb, hu, countEvents, isPostStartBegin]
    | ok r =>
      by_cases hex : r.exitCode = 0
      · constructor
        · intro _
          refine ⟨?_,
            ⟨.startCheckpointCmd checkpointRef (getRunContainerName runId) (.ok r), ?_, ?_⟩, ?_⟩
          · simp [restore, hb, hu, hex, countEvents, isPostStartBegin,
              sendPostStart_countEvents_postStartBegin]
          · simp [restore, hb, hu, hex]
          · simp [isRuntimeCmdSuccess, hex]
          · simp [restore, hb, hu, hex, sendPostStart_head]
        · intro hfalse
          simp [runtimeCmdOk, hb, hu, hex] at hfalse
      · constructor
        · intro hok
          simp [restore, hb, hu, hex] at hok
        · intro _
          simp [restore, hb, hu, hex, countEvents, isPostStartBegin]

/-- Claim C1 witness: the dispatch-ordering theorem at a concrete
successful simulated restore. -/
theorem restore_dispatches_postStart_once_witness :
    countEvents isPostStartBegin (restore ⟨true⟩ ⟨false, false⟩ "run_9" "ckpt" demoWorld).1 = 1
    ∧ (∃ e, ((restore ⟨true⟩ ⟨false, false⟩ "run_9" "ckpt" demoWorld).1)[0]? = some e
        ∧ isRuntimeCmdSuccess e = true)
    ∧ ((restore ⟨true⟩ ⟨false, false⟩ "run_9" "ckpt" demoWorld).1)[1]?
        = some (.postStartBegin (getRunContainerName "run_9")) := by
  refine (restore_dispatches_postStart_once_after_runtime_success
    ⟨true⟩ ⟨false, false⟩ "run_9" "ckpt" demoWorld).1 ?_
  have hport : getHttpServerPort "http server listening on port 4000" = .ok 4000 := by decide
  have hrun : ∀ c : String,
      runLifecycleCommand c 4000 HookType.postStart "restore" (fun _ => true) (fun _ => 0) 0
        = ([.lifecycleAttempt HookType.postStart c 4000 0 true], .ok ()) := by
    intro c
    rw [runLifecycleCommand]
    simp
  simp [restore, demoWorld, initializeOps, sendPostStart, hport, hrun]

/-- Claim C4: a simulated restore (`willSimulate` true, i.e. checkpointing
unsupported or force-simulate set) issues exactly one unpause command and
no checkpoint-start command; a real restore issues exactly one
checkpoint-start command — referencing the supplied checkpoint reference —
and no unpause command. -/
theorem restore_mode_selects_runtime_command
    (opts : OpsOptions) (st : OpsState) (runId checkpointRef : String) (w : RestoreWorld) :
    ((getInitializeReturn opts
        (initializeOps opts st w.criuOk w.dockerCheckpointOk).1).willSimulate = true →
      countEvents isUnpauseCmd (restore opts st runId checkpointRef w).1 = 1
      ∧ countEvents isStartCheckpointCmd (restore opts st runId checkpointRef w).1 = 0
      ∧ (∃ res, ((restore opts st runId checkpointRef w).1)[0]?
          = some (.unpauseCmd (getRunContainerName runId) res)))
    ∧ ((getInitializeReturn opts
        (initializeOps opts st w.criuOk w.dockerCheckpointOk).1).willSimulate = false →
      countEvents isUnpauseCmd (restore opts st runId checkpointRef w).1 = 0
      ∧ countEvents isStartCheckpointCmd (restore opts st runId checkpointRef w).1 = 1
      ∧ (∃ res, ((restore opts st runId checkpointRef w).1)[0]?
          = some (.startCheckpointCmd checkpointRef (getRunContainerName runId) res))) := by
  have hzuP : ∀ (c : String) l a r, countEvents isUnpauseCmd (sendPostStart c l a r).1 = 0 :=
    fun c l a r => sendPostStart_countEvents_zero c l a r isUnpauseCmd
      (fun _ => rfl) (fun _ => rfl) (fun _ _ _ _ _ => rfl) (fun _ => rfl)
  have hzsP : ∀ (c : String) l a r, countEvents isStartCheckpointCmd (sendPostStart c l a r).1 = 0 :=
    fun c l a r => sendPostStart_countEvents_zero c l a r isStartCheckpointCmd
      (fun _ => rfl) (fun _ => rfl) (fun _ _ _ _ _ => rfl) (fun _ => rfl)
  cases hb : (!(initializeOps opts st w.criuOk w.dockerCheckpointOk).1.canCheckpoint
      || opts.forceSimulate) with
  | true =>
    constructor
    · intro _
      cases hu : w.unpauseResult with
      | error e =>
        simp [restore, hb, hu, countEvents, isUnpauseCmd, isStartCheckpointCmd]
      | ok r =>
        by_cases hex : r.exitCode = 0
        · simp [restore, hb, hu, hex, countEvents, isUnpauseCmd, isStartCheckpointCmd, hzuP, hzsP]
        · simp [restore, hb, hu, hex, countEvents, isUnpauseCmd, isStartCheckpointCmd]
    · intro hw
      simp [getInitializeReturn, hb] at hw
  | false =>
    constructor
    · intro hw
      simp [getInitializeReturn, hb] at hw
    · intro _
      cases hu : w.startResult with
      | error e =>
        simp [restore, hb, hu, countEvents, isUnpauseCmd, isStartCheckpointCmd]
      | ok r =>
        by_cases hex : r.exitCode = 0
        · simp [restore, hb, hu, hex, countEvents, isUnpauseCmd, isStartCheckpointCmd, hzuP, hzsP]
        · simp [restore, hb, hu, hex, countEvents, isUnpauseCmd, isStartCheckpointCmd]

/-- Claim C4 witness: the mode theorem at a forced-simulation restore and
at a real restore of checkpoint `ckpt`. -/
theorem restore_mode_selects_runtime_command_witness :
    (countEvents isUnpauseCmd (restore ⟨true⟩ ⟨false, false⟩ "run_9" "ckpt" demoWorld).1 = 1
      ∧ countEvents isStartCheckpointCmd (restore ⟨true⟩ ⟨false, false⟩ "run_9" "ckpt" demoWorld).1 = 0
      ∧ (∃ res, ((restore ⟨true⟩ ⟨false, false⟩ "run_9" "ckpt" demoWorld).1)[0]?
          = some (.unpauseCmd (getRunContainerName "run_9") res)))
    ∧ (countEvents isUnpauseCmd (restore ⟨false⟩ ⟨false, false⟩ "run_9" "ckpt" demoWorld).1 = 0
      ∧ countEvents isStartCheckpointCmd (restore ⟨false⟩ ⟨false, false⟩ "run_9" "ckpt" demoWorld).1 = 1
      ∧ (∃ res, ((restore ⟨false⟩ ⟨false, false⟩ "run_9" "ckpt" demoWorld).1)[0]?
          = some (.startCheckpointCmd "ckpt" (getRunContainerName "run_9") res))) :=
  ⟨(restore_mode_selects_runtime_command ⟨true⟩ ⟨false, false⟩ "run_9" "ckpt" demoWorld).1
      (by decide),
    (restore_mode_selects_runtime_command ⟨false⟩ ⟨false, false⟩ "run_9" "ckpt" demoWorld).2
      (by decide)⟩

/-- Claim C9: under execa's reject-on-non-zero-exit semantics (a resolved
runtime command always carries exit code 0), the explicit exit-code guards
in `restore` are unreachable: no execution raises
`new Error("docker unpause command failed")` or
`new Error("docker start command failed")` — a non-zero exit surfaces as
the runner's own rejection before the guard runs. -/
theorem restore_exit_code_guards_unreachable
    (opts : OpsOptions) (st : OpsState) (runId checkpointRef : String) (w : RestoreWorld)
    (hu : ∀ r, w.unpauseResult = Except.ok r → r.exitCode = 0)
    (hs : ∀ r, w.startResult = Except.ok r → r.exitCode = 0) :
    (restore opts st runId checkpointRef w).2 ≠ .error (.jsNew "docker unpause command failed")
    ∧ (restore opts st runId checkpointRef w).2 ≠ .error (.jsNew "docker start command failed") := by
  cases hb : (!(initializeOps opts st w.criuOk w.dockerCheckpointOk).1.canCheckpoint
      || opts.forceSimulate) with
  | true =>
    cases hru : w.unpauseResult with
    | error e => simp [restore, hb, hru]
    | ok r =>
      have hex : r.exitCode = 0 := hu r hru
      rcases sendPostStart_result_cases (getRunContainerName runId) w.logsAt w.attemptOk w.rand
        with hps | hps
      · constructor <;> simp [restore, hb, hru, hex, hps]
      · constructor <;> simp [restore, hb, hru, hex, hps]
  | false =>
    cases hrs : w.startResult with
    | error e => simp [restore, hb, hrs]
    | ok r =>
      have hex : r.exitCode = 0 := hs r hrs
      rcases sendPostStart_result_cases (getRunContainerName runId) w.logsAt w.attemptOk w.rand
        with hps | hps
      · constructor <;> simp [restore, hb, hrs, hex, hps]
      · constructor <;> simp [restore, hb, hrs, hex, hps]

/-- Claim C9 witness: the unreachability theorem at a concrete world whose
runtime commands resolve with exit code 0. -/
theorem restore_exit_code_guards_unreachable_witness :
    (restore ⟨true⟩ ⟨false, false⟩ "run_9" "ckpt" demoWorld).2
      ≠ .error (.jsNew "docker unpause command failed")
    ∧ (restore ⟨true⟩ ⟨false, false⟩ "run_9" "ckpt" demoWorld).2
      ≠ .error (.jsNew "docker start command failed") :=
  restore_exit_code_guards_unreachable ⟨true⟩ ⟨false, false⟩ "run_9" "ckpt" demoWorld
    (by intro r h; simp [demoWorld] at h; simp [← h])
    (by intro r h; simp [demoWorld] at h; simp [← h])

end DockerProvider
